import Mathlib

/-!
# Verification of the hiero-block-bridge simulator core

A shallow embedding of the three core components of the repository:

* `MockBlockStream` (src/simulator/mock-stream.ts) — the timer-driven block
  generator, modelled as a state machine `GenState` driven by explicit
  operations (`GenOp`) and per-tick randomness oracles (`BlockOracle`,
  `TxOracle`).  `Math.random()` draws are replaced by oracle fields; JS
  numbers holding integral values are modelled as `Int`; ISO timestamps are
  carried as epoch milliseconds (`Int`) since no verified property inspects
  the rendered date string.
* `QuerySimulator` (src/simulator/query-sim.ts) — the lazy query index,
  modelled as `QueryState` with association-list maps and the watermark
  `lastIndexedBlock`.
* `MirrorNodeFallback` (src/simulator/mirror-fallback.ts) — the fallback
  router, modelled by its dispatch skeleton; the outcome of the primary call
  and of the remote `mirrorGet` (network I/O) are inputs.
-/

namespace HieroBridge

/-- Transaction types used by the simulator (subset of the full
`TransactionTypeSchema` enum that mock generation and dispatch touch). -/
inductive TransactionType where
  | CryptoTransfer
  | CryptoCreate
  | ContractCall
  | ContractCreate
  | TokenTransfer
  | TokenMint
  | ConsensusSubmitMessage
  deriving DecidableEq, Repr

/-- State change types (`StateChangeTypeSchema`). -/
inductive StateChangeType where
  | BALANCE
  | NONCE
  | TOKEN_BALANCE
  | CONTRACT_STORAGE
  deriving DecidableEq, Repr

/-- Error codes from src/types/errors.ts that the modelled code paths use. -/
inductive ErrorCode where
  | STREAM_ALREADY_RUNNING
  | INVALID_BLOCK_NUMBER
  | QUERY_FAILED
  | FALLBACK_DISABLED
  | MIRROR_NODE_UNAVAILABLE
  | FALLBACK_FAILED
  deriving DecidableEq, Repr

/-- A `HieroBridgeError`: machine-readable code plus human-readable message. -/
structure HieroBridgeError where
  code : ErrorCode
  message : String
  deriving DecidableEq, Repr

/-- The `Result` type from src/types/result.ts (`ok`/`err` discriminated
union). -/
inductive Result (α : Type) where
  | ok (value : α)
  | err (error : HieroBridgeError)
  deriving DecidableEq, Repr

/-- One signed HBAR transfer entry. -/
structure Transfer where
  accountId : String
  amount : Int
  deriving DecidableEq, Repr

/-- One token transfer entry. -/
structure TokenTransferEntry where
  tokenId : String
  accountId : String
  amount : Int
  deriving DecidableEq, Repr

/-- Transaction receipt (status plus the optional fields mock generation
sets for `CryptoCreate` / `TokenMint`). -/
structure TransactionReceipt where
  status : String
  accountId : Option String
  serialNumbers : Option (List Int)
  deriving DecidableEq, Repr

/-- Contract call result, attached for `ContractCall` / `ContractCreate`. -/
structure ContractFunctionResult where
  contractId : String
  result : String
  gasUsed : Int
  gas : Int
  amount : Int
  deriving DecidableEq, Repr

/-- An `EventTransaction` as assembled by `generateTransactions`.
Timestamps are epoch milliseconds. -/
structure EventTransaction where
  transactionId : String
  type : TransactionType
  payerAccountId : String
  receipt : TransactionReceipt
  fee : Int
  consensusTimestamp : Int
  validStartTimestamp : Int
  validDurationSeconds : Int
  nodeAccountId : String
  transfers : List Transfer
  tokenTransfers : List TokenTransferEntry
  contractResult : Option ContractFunctionResult
  transactionHash : String
  deriving DecidableEq, Repr

/-- A recorded state change (`StateChangeSchema`). -/
structure StateChange where
  entityId : String
  changeType : StateChangeType
  previousValue : String
  newValue : String
  transactionId : String
  consensusTimestamp : Int
  deriving DecidableEq, Repr

/-- A block item: tagged union of transaction and state change (the two
kinds mock generation produces). -/
inductive BlockItem where
  | transaction (data : EventTransaction)
  | stateChange (data : StateChange)
  deriving DecidableEq, Repr

/-- Block header (`BlockHeaderSchema` plus the extra fields mock generation
sets). -/
structure BlockHeader where
  number : Int
  hash : String
  previousHash : String
  timestamp : Int
  itemCount : Nat
  softwareVersion : String
  hashAlgorithm : String
  deriving DecidableEq, Repr

/-- Block proof (`BlockProofSchema`). -/
structure BlockProof where
  blockNumber : Int
  blockHash : String
  signature : String
  verified : Bool
  deriving DecidableEq, Repr

/-- A complete block (`BlockSchema`; `proof` is optional in the schema). -/
structure Block where
  header : BlockHeader
  items : List BlockItem
  proof : Option BlockProof
  gasUsed : Int
  successfulTransactions : Nat
  failedTransactions : Nat
  deriving DecidableEq, Repr

/-- Simulator options after Zod parsing (`SimulatorOptionsSchema` with
defaults applied).  `failureRate` is the 0–1 probability as a rational. -/
structure SimulatorOptions where
  blockIntervalMs : Int := 2000
  transactionsPerBlock : Nat := 5
  enableStateProofs : Bool := false
  failureRate : ℚ := 0
  startBlockNumber : Int := 1

/-- Left-pad a string with zeros to the given width
(JS `String.padStart(w, '0')`). -/
def padStartZeros (s : String) (w : Nat) : String :=
  if w ≤ s.length then s else String.mk (List.replicate (w - s.length) '0') ++ s

/-- `makeTransactionId(payer, timestamp)`: `payer@seconds.nanos` with nanos
zero-padded to 9 digits.  `timestamp` is epoch milliseconds (non-negative in
every run, so floor division/modulo agree with the JS arithmetic). -/
def makeTransactionId (payerAccountId : String) (tmillis : Int) : String :=
  let seconds := tmillis.fdiv 1000
  let nanos := tmillis.emod 1000 * 1000000
  payerAccountId ++ "@" ++ toString seconds ++ "." ++ padStartZeros (toString nanos) 9

/-- Randomness oracle for one generated transaction: the values the
`Math.random()`-based helpers (`randomAccountId`, `randomPick`, `randomInt`,
`randomHex`) would return during `generateTransactions`,
`generateTransfers`, `generateTokenTransfers` and `generateStateChanges`. -/
structure TxOracle where
  payerAccountId : String
  type : TransactionType
  isSuccess : Bool
  fee : Int
  nodeAccountId : String
  createdAccountId : String
  mintSerial : Int
  xferFee : Int
  recipientId : String
  xferNodeId : String
  transferAmount : Int
  tokenId : String
  tokenSender : String
  tokenReceiver : String
  tokenAmount : Int
  contractId : String
  contractResultHex : String
  contractGasUsed : Int
  txHash : String
  scType : StateChangeType
  scPreviousValue : Int
  scDelta : Int

/-- Randomness oracle for one `generateAndEmitBlock` call: the failure-roll
outcome, the wall clock, the per-transaction oracles and the block-level
random hex strings. -/
structure BlockOracle where
  failRoll : Bool
  now : Int
  txo : Nat → TxOracle
  blockHash : String
  proofSignature : String

/-- `generateTransfers(payerAccountId, type)`: payer debited
`transferAmount + fee`, recipient credited `transferAmount`, node credited
`fee`. -/
def generateTransfers (payerAccountId : String) (o : TxOracle) : List Transfer :=
  [ { accountId := payerAccountId, amount := -(o.transferAmount + o.xferFee) },
    { accountId := o.recipientId, amount := o.transferAmount },
    { accountId := o.xferNodeId, amount := o.xferFee } ]

/-- `generateTokenTransfers()`: sender debited, receiver credited. -/
def generateTokenTransfers (o : TxOracle) : List TokenTransferEntry :=
  [ { tokenId := o.tokenId, accountId := o.tokenSender, amount := -o.tokenAmount },
    { tokenId := o.tokenId, accountId := o.tokenReceiver, amount := o.tokenAmount } ]

/-- Assemble the transaction built in the body of the `generateTransactions`
loop for one index, with `txTime = blockTime + i * 50`. -/
def mkTransaction (o : TxOracle) (txTime : Int) : EventTransaction :=
  { transactionId := makeTransactionId o.payerAccountId txTime
    type := o.type
    payerAccountId := o.payerAccountId
    receipt :=
      { status := if o.isSuccess then "SUCCESS" else "INVALID_TRANSACTION"
        accountId :=
          if o.type = .CryptoCreate ∧ o.isSuccess then some o.createdAccountId else none
        serialNumbers :=
          if o.type = .TokenMint ∧ o.isSuccess then some [o.mintSerial] else none }
    fee := o.fee
    consensusTimestamp := txTime
    validStartTimestamp := txTime - 5000
    validDurationSeconds := 120
    nodeAccountId := o.nodeAccountId
    transfers := generateTransfers o.payerAccountId o
    tokenTransfers := if o.type = .TokenTransfer then generateTokenTransfers o else []
    contractResult :=
      if o.type = .ContractCall ∨ o.type = .ContractCreate then
        some { contractId := o.contractId, result := o.contractResultHex,
               gasUsed := o.contractGasUsed, gas := 1000000, amount := 0 }
      else none
    transactionHash := o.txHash }

/-- `generateTransactions(blockTime)`: one transaction per index
`i < transactionsPerBlock`, staggered 50 ms apart within the block. -/
def generateTransactions (count : Nat) (blockTime : Int) (txo : Nat → TxOracle) :
    List EventTransaction :=
  (List.range count).map (fun i => mkTransaction (txo i) (blockTime + i * 50))

/-- The state change pushed for one successful transaction. -/
def mkStateChange (o : TxOracle) (tx : EventTransaction) : StateChange :=
  { entityId := tx.payerAccountId
    changeType := o.scType
    previousValue := toString o.scPreviousValue
    newValue := toString (o.scPreviousValue + o.scDelta)
    transactionId := tx.transactionId
    consensusTimestamp := tx.consensusTimestamp }

/-- `generateStateChanges(transactions)`: skip non-SUCCESS transactions,
push one change per successful one. -/
def generateStateChanges (count : Nat) (blockTime : Int) (txo : Nat → TxOracle) :
    List StateChange :=
  (List.range count).filterMap (fun i =>
    let tx := mkTransaction (txo i) (blockTime + i * 50)
    if tx.receipt.status ≠ "SUCCESS" then none else some (mkStateChange (txo i) tx))

/-- `MockBlockStream` mutable state: the append-only block log, the
next-to-produce block number, and the `running` / `paused` flags
(`intervalId != null` coincides with `running` in every reachable state). -/
structure GenState where
  blocks : List Block
  currentBlockNumber : Int
  running : Bool
  paused : Bool

/-- A stream event as emitted on the `streamEvent` channel. -/
inductive StreamEv where
  | blockStart (header : BlockHeader)
  | blockItem (item : BlockItem) (blockNumber : Int)
  | blockEnd (blockNumber : Int) (itemCount : Nat) (gasUsed : Int)
      (successCount : Nat) (failCount : Nat)
  | streamError (error : String) (recoverable : Bool) (blockNumber : Int)
  | heartbeat (latestBlockNumber : Int)

/-- One emission on any of the typed emitter channels, in order. -/
inductive Emission where
  | streamEvent (e : StreamEv)
  | txEmit (tx : EventTransaction)
  | scEmit (sc : StateChange)
  | blockEmit (b : Block)
  | errorEmit (message : String)
  | heartbeatEmit (latestBlockNumber : Int)
  | pausedEmit
  | resumedEmit
  | endEmit

/-- The `previousHash` computation: last stored block's hash, empty string
when the log is empty. -/
def prevHashOf (blocks : List Block) : String :=
  match blocks.getLast? with
  | some b => b.header.hash
  | none => ""

/-- The block assembled on a successful generation tick (the header /
proof / counters section of `generateAndEmitBlock`). -/
def assembleBlock (opts : SimulatorOptions) (s : GenState) (o : BlockOracle) : Block :=
  let transactions := generateTransactions opts.transactionsPerBlock o.now o.txo
  let stateChanges := generateStateChanges opts.transactionsPerBlock o.now o.txo
  let items := transactions.map BlockItem.transaction
    ++ stateChanges.map BlockItem.stateChange
  let header : BlockHeader :=
    { number := s.currentBlockNumber, hash := o.blockHash,
      previousHash := prevHashOf s.blocks,
      timestamp := o.now, itemCount := items.length,
      softwareVersion := "0.74.0", hashAlgorithm := "SHA_384" }
  let successCount := (transactions.filter (fun tx => tx.receipt.status = "SUCCESS")).length
  let totalGas := transactions.foldl
    (fun sum tx => sum + ((tx.contractResult.map (·.gasUsed)).getD 0)) 0
  { header := header, items := items,
    proof := some { blockNumber := s.currentBlockNumber, blockHash := header.hash,
                    signature := o.proofSignature, verified := true },
    gasUsed := totalGas, successfulTransactions := successCount,
    failedTransactions := transactions.length - successCount }

/-- `generateAndEmitBlock()`: the per-tick generation body.  Returns the
updated state and the emissions in order (failure injection first; on
success: block-start, per-item events, block-end, aggregated block). -/
def generateAndEmitBlock (opts : SimulatorOptions) (s : GenState) (o : BlockOracle) :
    GenState × List Emission :=
  if opts.failureRate > 0 ∧ o.failRoll then
    (s, [ .streamEvent (.streamError "Simulated stream error (failure injection)"
            true s.currentBlockNumber),
          .errorEmit "Simulated stream error (failure injection)" ])
  else
    let blockNumber := s.currentBlockNumber
    let block := assembleBlock opts s o
    ({ s with blocks := s.blocks ++ [block], currentBlockNumber := blockNumber + 1 },
      [ .streamEvent (.blockStart block.header) ]
      ++ block.items.flatMap (fun item =>
           .streamEvent (.blockItem item blockNumber) ::
           (match item with
            | .transaction tx => [.txEmit tx]
            | .stateChange sc => [.scEmit sc]))
      ++ [ .streamEvent (.blockEnd blockNumber block.header.itemCount block.gasUsed
             block.successfulTransactions block.failedTransactions),
           .blockEmit block ])

/-- An externally observable operation on a `MockBlockStream`: lifecycle
calls and timer ticks (each tick carrying its randomness oracle). -/
inductive GenOp where
  | startOp (o : BlockOracle)
  | stopOp
  | pauseOp
  | resumeOp
  | seekOp (blockNumber : Int)
  | tickOp (o : BlockOracle)

/-- Apply one operation.  A thrown `HieroBridgeError` (already-running
`start`, negative `seek`) leaves the state unchanged and emits nothing;
ticks fire only while the timer is armed (`running`). -/
def applyOp (opts : SimulatorOptions) (s : GenState) : GenOp → GenState × List Emission
  | .startOp o =>
    if s.running then (s, [])
    else generateAndEmitBlock opts { s with running := true, paused := false } o
  | .stopOp => ({ s with running := false, paused := false }, [.endEmit])
  | .pauseOp =>
    if ¬ s.running ∨ s.paused then (s, [])
    else ({ s with paused := true }, [.pausedEmit])
  | .resumeOp =>
    if ¬ s.running ∨ ¬ s.paused then (s, [])
    else ({ s with paused := false }, [.resumedEmit])
  | .seekOp blockNumber =>
    if blockNumber < 0 then (s, [])
    else ({ s with currentBlockNumber := blockNumber }, [])
  | .tickOp o =>
    if ¬ s.running then (s, [])
    else if s.paused then
      (s, [ .heartbeatEmit (s.currentBlockNumber - 1),
            .streamEvent (.heartbeat (s.currentBlockNumber - 1)) ])
    else generateAndEmitBlock opts s o

/-- Run a sequence of operations, concatenating emissions. -/
def runOps (opts : SimulatorOptions) (s : GenState) : List GenOp → GenState × List Emission
  | [] => (s, [])
  | op :: ops =>
    ((runOps opts (applyOp opts s op).1 ops).1,
     (applyOp opts s op).2 ++ (runOps opts (applyOp opts s op).1 ops).2)

/-- The constructor-time state: empty log, counter at `startBlockNumber`. -/
def initState (opts : SimulatorOptions) : GenState :=
  { blocks := [], currentBlockNumber := opts.startBlockNumber,
    running := false, paused := false }

/-- Consume one or more leading decimal digits (`\d+`); `none` if the input
does not start with a digit, otherwise the rest of the input. -/
def digits1 (cs : List Char) : Option (List Char) :=
  let p := cs.span Char.isDigit
  if p.1.isEmpty then none else some p.2

/-- Consume one expected literal character. -/
def expectChar (c : Char) : List Char → Option (List Char)
  | [] => none
  | x :: xs => if x = c then some xs else none

/-- `AccountIdSchema` regex `^\d+\.\d+\.\d+$`. -/
def accountIdValid (s : String) : Bool :=
  (do
    let r ← digits1 s.data
    let r ← expectChar '.' r
    let r ← digits1 r
    let r ← expectChar '.' r
    let r ← digits1 r
    pure r.isEmpty).getD false

/-- `TransactionIdSchema` regex `^\d+\.\d+\.\d+@\d+\.\d+$`. -/
def transactionIdValid (s : String) : Bool :=
  (do
    let r ← digits1 s.data
    let r ← expectChar '.' r
    let r ← digits1 r
    let r ← expectChar '.' r
    let r ← digits1 r
    let r ← expectChar '@' r
    let r ← digits1 r
    let r ← expectChar '.' r
    let r ← digits1 r
    pure r.isEmpty).getD false

/-- Lookup in an association-list model of a JS `Map`. -/
def mapGet {α : Type} (m : List (String × α)) (k : String) : Option α :=
  (m.find? (fun kv => kv.1 = k)).map (·.2)

/-- `Map.set`: replace the binding if present, else append. -/
def mapSet {α : Type} (m : List (String × α)) (k : String) (v : α) :
    List (String × α) :=
  if (m.find? (fun kv => kv.1 = k)).isSome then
    m.map (fun kv => if kv.1 = k then (k, v) else kv)
  else m ++ [(k, v)]

/-- `QuerySimulator` mutable state: the three index maps plus the
`lastIndexedBlock` watermark (initially −1). -/
structure QueryState where
  txIndex : List (String × EventTransaction)
  balanceIndex : List (String × Int)
  stateIndex : List (String × List StateChange)
  lastIndexedBlock : Int

/-- Fold one block item into the maps (body of the inner loop of
`refreshIndexes`). -/
def foldItem (s : QueryState) (item : BlockItem) : QueryState :=
  match item with
  | .transaction tx =>
    { s with
      txIndex := mapSet s.txIndex tx.transactionId tx
      balanceIndex := tx.transfers.foldl
        (fun m t => mapSet m t.accountId ((mapGet m t.accountId).getD 0 + t.amount))
        s.balanceIndex }
  | .stateChange change =>
    { s with
      stateIndex := mapSet s.stateIndex change.entityId
        ((mapGet s.stateIndex change.entityId).getD [] ++ [change]) }

/-- Fold one block: skip it if its number is at or below the watermark,
otherwise fold every item and advance the watermark to its number. -/
def foldBlock (s : QueryState) (b : Block) : QueryState :=
  if b.header.number ≤ s.lastIndexedBlock then s
  else { b.items.foldl foldItem s with lastIndexedBlock := b.header.number }

/-- `refreshIndexes()`: scan the generator's block log in order. -/
def refreshIndexes (s : QueryState) : List Block → QueryState
  | [] => s
  | b :: bs => refreshIndexes (foldBlock s b) bs

/-- The numbers of the blocks a `refreshIndexes` pass starting at watermark
`wm` folds (rather than skips), in scan order. -/
def foldedNumbers (wm : Int) : List Block → List Int
  | [] => []
  | b :: bs =>
    if b.header.number ≤ wm then foldedNumbers wm bs
    else b.header.number :: foldedNumbers b.header.number bs

/-- The watermark value after one `refreshIndexes` pass. -/
def wmAfter (wm : Int) : List Block → Int
  | [] => wm
  | b :: bs =>
    if b.header.number ≤ wm then wmAfter wm bs
    else wmAfter b.header.number bs

/-- A sequence of refreshes (one per query), each against the block log
current at that query; returns the final state and all folded block
numbers in order. -/
def runRefresh (s : QueryState) : List (List Block) → QueryState × List Int
  | [] => (s, [])
  | l :: ls =>
    ((runRefresh (refreshIndexes s l) ls).1,
     foldedNumbers s.lastIndexedBlock l ++ (runRefresh (refreshIndexes s l) ls).2)

/-- Query result for an account balance. -/
structure AccountBalance where
  accountId : String
  balanceTinybars : Int
  hbars : String
  tokens : List TokenTransferEntry
  atBlockNumber : Option Int
  timestamp : Option Int
  deriving DecidableEq, Repr

/-- Query result for a state proof. -/
structure StateProof where
  entityId : String
  stateValue : String
  atBlockNumber : Int
  timestamp : Int
  merklePath : List String
  stateRootHash : String
  verified : Bool
  deriving DecidableEq, Repr

/-- `tinybarToHbar`: render tinybars as an HBAR decimal string with 8
fractional digits (applied to the already-clamped non-negative value; the
JS float formatting is exact on these magnitudes). -/
def tinybarToHbar (tinybars : Int) : String :=
  toString (tinybars.fdiv 100000000) ++ "."
    ++ padStartZeros (toString (tinybars.emod 100000000)) 8

/-- `getBlock(blockNumber)`: validate, refresh, then look the block up in
the stream's log (`stream.getBlock` is a `find` on `header.number`). -/
def qsGetBlock (s : QueryState) (log : List Block) (blockNumber : Int) :
    Result Block × QueryState :=
  if ¬ (0 ≤ blockNumber) then
    (.err { code := .INVALID_BLOCK_NUMBER,
            message := "Block number must be non-negative" }, s)
  else
    let s1 := refreshIndexes s log
    match log.find? (fun b => b.header.number = blockNumber) with
    | none => (.err { code := .QUERY_FAILED, message := "Block not found" }, s1)
    | some b => (.ok b, s1)

/-- `getTransaction(transactionId)`: validate, refresh, then look up. -/
def qsGetTransaction (s : QueryState) (log : List Block) (transactionId : String) :
    Result EventTransaction × QueryState :=
  if ¬ transactionIdValid transactionId then
    (.err { code := .QUERY_FAILED,
            message := "Invalid transaction ID format. Expected: 0.0.12345@1709000000.000000000" }, s)
  else
    let s1 := refreshIndexes s log
    match mapGet s1.txIndex transactionId with
    | none => (.err { code := .QUERY_FAILED, message := "Transaction not found" }, s1)
    | some tx => (.ok tx, s1)

/-- `getAccountBalance(accountId)`: validate, refresh, read the balance or
seed a pseudo-random one for a previously unseen account (`seedValue` is
the `randomInt` oracle for that draw). -/
def qsGetAccountBalance (s : QueryState) (log : List Block) (accountId : String)
    (seedValue : Int) : Result AccountBalance × QueryState :=
  if ¬ accountIdValid accountId then
    (.err { code := .QUERY_FAILED,
            message := "Invalid account ID format. Expected: 0.0.12345" }, s)
  else
    let s1 := refreshIndexes s log
    let latest := log.getLast?
    let seeded := mapGet s1.balanceIndex accountId
    let tinybars := seeded.getD seedValue
    let s2 := match seeded with
      | some _ => s1
      | none => { s1 with balanceIndex := mapSet s1.balanceIndex accountId seedValue }
    (.ok { accountId := accountId
           balanceTinybars := max 0 tinybars
           hbars := tinybarToHbar (max 0 tinybars)
           tokens := []
           atBlockNumber := latest.map (·.header.number)
           timestamp := latest.map (·.header.timestamp) }, s2)

/-- `getStateProof(entityId)`: validate, refresh, synthesize a proof from
the latest recorded state change (or the balance), anchored at the latest
block (`pathOracle` and `nowOracle` model the `randomHex` / `new Date()`
draws). -/
def qsGetStateProof (s : QueryState) (log : List Block) (entityId : String)
    (pathOracle : Nat → String) (nowOracle : Int) : Result StateProof × QueryState :=
  if ¬ accountIdValid entityId then
    (.err { code := .QUERY_FAILED,
            message := "Invalid account ID format. Expected: 0.0.12345" }, s)
  else
    let s1 := refreshIndexes s log
    let changes := mapGet s1.stateIndex entityId
    let latestBlock := log.getLast?
    let latestChange := (changes.getD []).getLast?
    let stateValue := match latestChange with
      | some c => c.newValue
      | none => toString ((mapGet s1.balanceIndex entityId).getD 0)
    (.ok { entityId := entityId
           stateValue := stateValue
           atBlockNumber := (latestBlock.map (·.header.number)).getD 0
           timestamp := (latestBlock.map (·.header.timestamp)).getD nowOracle
           merklePath := [pathOracle 0, pathOracle 1, pathOracle 2]
           stateRootHash := (latestBlock.map (·.header.hash)).getD (pathOracle 3)
           verified := true }, s1)

/-- `getTransactionsByAccount(payerAccountId)`: validate, refresh, filter
the transaction index by payer. -/
def qsGetTransactionsByAccount (s : QueryState) (log : List Block)
    (payerAccountId : String) : Result (List EventTransaction) × QueryState :=
  if ¬ accountIdValid payerAccountId then
    (.err { code := .QUERY_FAILED,
            message := "Invalid account ID format. Expected: 0.0.12345" }, s)
  else
    let s1 := refreshIndexes s log
    (.ok ((s1.txIndex.map (·.2)).filter (fun tx => tx.payerAccountId = payerAccountId)), s1)

/-- `getBlockRange(from, to)`: range validation, refresh, filter. -/
def qsGetBlockRange (s : QueryState) (log : List Block) (lo hi : Int) :
    Result (List Block) × QueryState :=
  if lo < 0 ∨ hi < lo then
    (.err { code := .INVALID_BLOCK_NUMBER, message := "Invalid range" }, s)
  else
    let s1 := refreshIndexes s log
    (.ok (log.filter (fun b => lo ≤ b.header.number ∧ b.header.number ≤ hi)), s1)

/-- Fallback strategy (`FallbackStrategySchema`). -/
inductive FallbackStrategy where
  | auto
  | manual
  | disabled
  deriving DecidableEq, Repr

/-- Immutable router configuration relevant to dispatch: the strategy and
whether a primary source handle was supplied. -/
structure FallbackConfig where
  strategy : FallbackStrategy
  hasPrimary : Bool

/-- Router mutable state: the single `fallbackActive` flag. -/
structure FallbackState where
  fallbackActive : Bool
  deriving DecidableEq, Repr

/-- Events emitted by the router. -/
inductive FbEvent where
  | fallbackActivated (reason : String)
  | fallbackDeactivated
  | mirrorQuery
  | mirrorError

/-- The full observable outcome of one query dispatch. -/
structure DispatchOut (α : Type) where
  result : Result α
  state : FallbackState
  events : List FbEvent
  primaryCalled : Bool
  remoteCalled : Bool

/-- `activateFallback(reason)`: a no-op under strategy `disabled`; only the
first transition to active emits `fallbackActivated`. -/
def activateFallback (cfg : FallbackConfig) (s : FallbackState) (reason : String) :
    FallbackState × List FbEvent :=
  if cfg.strategy = .disabled then (s, [])
  else if ¬ s.fallbackActive then
    ({ fallbackActive := true }, [.fallbackActivated reason])
  else (s, [])

/-- The tail shared by every query method after the primary attempt:
the `disabled` short-circuit, then the `mirrorGet` remote path.
`remoteOutcome` is the outcome of the network call plus response
validation and field mapping (`ok` emits `mirrorQuery` inside `mirrorGet`;
a non-`HieroBridgeError` failure emits `mirrorError`; either way the error
is surfaced through `wrapError`). -/
def remotePath {α : Type} (cfg : FallbackConfig) (s : FallbackState)
    (evs : List FbEvent) (primaryCalled : Bool) (remoteOutcome : Result α) :
    DispatchOut α :=
  if cfg.strategy = .disabled then
    { result := .err { code := .FALLBACK_DISABLED, message := "Fallback is disabled." },
      state := s, events := evs, primaryCalled := primaryCalled, remoteCalled := false }
  else
    match remoteOutcome with
    | .ok v =>
      { result := .ok v, state := s, events := evs ++ [.mirrorQuery],
        primaryCalled := primaryCalled, remoteCalled := true }
    | .err e =>
      { result := .err e, state := s, events := evs ++ [.mirrorError],
        primaryCalled := primaryCalled, remoteCalled := true }

/-- The dispatch skeleton shared verbatim by `getBlock`, `getTransaction`,
`getAccountBalance` and `getStateProof`: try the primary when configured
and not in fallback mode; on its failure activate fallback; then the
strategy check and the remote path.  `primaryOutcome` is what
`this.primary.<query>(...)` returns when reached. -/
def dispatch {α : Type} (cfg : FallbackConfig) (s : FallbackState)
    (primaryOutcome : Result α) (remoteOutcome : Result α) : DispatchOut α :=
  if cfg.hasPrimary ∧ ¬ s.fallbackActive then
    match primaryOutcome with
    | .ok v =>
      { result := .ok v, state := s, events := [],
        primaryCalled := true, remoteCalled := false }
    | .err e =>
      let a := activateFallback cfg s e.message
      remotePath cfg a.1 a.2 true remoteOutcome
  else remotePath cfg s [] false remoteOutcome

/-- `isFallbackActive()`. -/
def isFallbackActive (s : FallbackState) : Bool :=
  s.fallbackActive

/-- `resetFallback()`: deactivate (emitting `fallbackDeactivated`) only if
currently active. -/
def resetFallback (s : FallbackState) : FallbackState × List FbEvent :=
  if s.fallbackActive then ({ fallbackActive := false }, [.fallbackDeactivated])
  else (s, [])

/-- Run a sequence of queries (each given by its primary and remote
outcomes), threading the router state and collecting all events. -/
def runQueries {α : Type} (cfg : FallbackConfig) (s : FallbackState) :
    List (Result α × Result α) → FallbackState × List FbEvent
  | [] => (s, [])
  | q :: qs =>
    ((runQueries cfg (dispatch cfg s q.1 q.2).state qs).1,
     (dispatch cfg s q.1 q.2).events ++ (runQueries cfg (dispatch cfg s q.1 q.2).state qs).2)

/-! ## Invariants and helper predicates -/

/-- Hash-chain link between consecutive stored blocks: the later block's
`previousHash` is the earlier block's `hash` and its number is one
greater. -/
def linked (a b : Block) : Prop :=
  b.header.previousHash = a.header.hash ∧ b.header.number = a.header.number + 1

/-- The generator invariant maintained by every seek-free run: the block
log is hash-chained with consecutive numbers, the first stored block has an
empty `previousHash`, and the next-to-produce counter sits one past the
last stored block. -/
def genInv (s : GenState) : Prop :=
  s.blocks.Chain' linked
  ∧ (∀ b ∈ s.blocks.head?, b.header.previousHash = "")
  ∧ (∀ b ∈ s.blocks.getLast?, s.currentBlockNumber = b.header.number + 1)

/-- Whether an operation is a `seek` call. -/
def isSeekOp : GenOp → Bool
  | .seekOp _ => true
  | _ => false

/-- A run with no `seek` call. -/
def noSeek (ops : List GenOp) : Bool :=
  ops.all (fun op => !isSeekOp op)

/-- Whether an emission is a heartbeat (on either the `heartbeat` or the
`streamEvent` channel). -/
def isHeartbeatEmission : Emission → Bool
  | .heartbeatEmit _ => true
  | .streamEvent (.heartbeat _) => true
  | _ => false

/-- Whether an emission is a block emission (`block` channel). -/
def isBlockEmission : Emission → Bool
  | .blockEmit _ => true
  | _ => false

/-! ## Concrete data used by witnesses and counterexamples -/

/-- A fixed transaction oracle (one concrete draw of every random value). -/
def txo0 : TxOracle :=
  { payerAccountId := "0.0.500", type := .CryptoTransfer, isSuccess := true,
    fee := 100000, nodeAccountId := "0.0.3", createdAccountId := "0.0.600",
    mintSerial := 1, xferFee := 70000, recipientId := "0.0.700",
    xferNodeId := "0.0.3", transferAmount := 5000000, tokenId := "0.0.900",
    tokenSender := "0.0.901", tokenReceiver := "0.0.902", tokenAmount := 10,
    contractId := "0.0.1000", contractResultHex := "0x00", contractGasUsed := 30000,
    txHash := "cc", scType := .BALANCE, scPreviousValue := 10, scDelta := 5 }

/-- A concrete block oracle for a first generated block with hash `"aa"`. -/
def bo1 : BlockOracle :=
  { failRoll := false, now := 1700000000000, txo := fun _ => txo0,
    blockHash := "aa", proofSignature := "s1" }

/-- A concrete block oracle for a second generated block with hash `"bb"`. -/
def bo2 : BlockOracle :=
  { failRoll := false, now := 1700000002000, txo := fun _ => txo0,
    blockHash := "bb", proofSignature := "s2" }

/-- A block oracle whose failure roll fires. -/
def boFail : BlockOracle :=
  { failRoll := true, now := 1700000004000, txo := fun _ => txo0,
    blockHash := "dd", proofSignature := "s3" }

/-- Concrete simulator options: one transaction per block, no failure. -/
def opts1 : SimulatorOptions :=
  { blockIntervalMs := 2000, transactionsPerBlock := 1, enableStateProofs := false,
    failureRate := 0, startBlockNumber := 1 }

/-- Concrete options with failure injection enabled. -/
def optsFail : SimulatorOptions :=
  { blockIntervalMs := 2000, transactionsPerBlock := 1, enableStateProofs := false,
    failureRate := 1, startBlockNumber := 1 }

/-- A concrete running, unpaused generator state with an empty log. -/
def runningState : GenState :=
  { blocks := [], currentBlockNumber := 1, running := true, paused := false }

/-- A concrete empty query-index state (watermark −1, as at construction,
before the default balance seeding). -/
def qs0 : QueryState :=
  { txIndex := [], balanceIndex := [], stateIndex := [], lastIndexedBlock := -1 }

/-- A tiny block with the given number and no items (used to exercise the
indexing lemmas on concrete logs). -/
def miniBlock (n : Int) : Block :=
  { header := { number := n, hash := "h", previousHash := "", timestamp := 0,
                itemCount := 0, softwareVersion := "0.74.0", hashAlgorithm := "SHA_384" },
    items := [], proof := none, gasUsed := 0,
    successfulTransactions := 0, failedTransactions := 0 }

/-! ## Generator lemmas -/

/-- Successful-tick characterization of `generateAndEmitBlock`: the block
log grows by the assembled block and the counter advances by one. -/
theorem generateAndEmitBlock_success (opts : SimulatorOptions) (s : GenState)
    (o : BlockOracle) (h : ¬ (opts.failureRate > 0 ∧ o.failRoll)) :
    (generateAndEmitBlock opts s o).1 =
      { s with blocks := s.blocks ++ [assembleBlock opts s o],
               currentBlockNumber := s.currentBlockNumber + 1 } := by
  simp [generateAndEmitBlock, h]

/-- Failing-tick characterization: the state is untouched. -/
theorem generateAndEmitBlock_fail (opts : SimulatorOptions) (s : GenState)
    (o : BlockOracle) (h : opts.failureRate > 0 ∧ o.failRoll) :
    generateAndEmitBlock opts s o =
      (s, [ .streamEvent (.streamError "Simulated stream error (failure injection)"
              true s.currentBlockNumber),
            .errorEmit "Simulated stream error (failure injection)" ]) := by
  simp [generateAndEmitBlock, h]

theorem assembleBlock_number (opts : SimulatorOptions) (s : GenState) (o : BlockOracle) :
    (assembleBlock opts s o).header.number = s.currentBlockNumber := rfl

theorem assembleBlock_previousHash (opts : SimulatorOptions) (s : GenState)
    (o : BlockOracle) :
    (assembleBlock opts s o).header.previousHash = prevHashOf s.blocks := rfl

/-- Generation preserves the chain invariant. -/
theorem genInv_generate (opts : SimulatorOptions) (s : GenState) (o : BlockOracle)
    (h : genInv s) : genInv (generateAndEmitBlock opts s o).1 := by
  by_cases hf : opts.failureRate > 0 ∧ o.failRoll
  · rw [generateAndEmitBlock_fail opts s o hf]
    exact h
  · rw [generateAndEmitBlock_success opts s o hf]
    obtain ⟨hchain, hhead, hlast⟩ := h
    refine ⟨?_, ?_, ?_⟩
    · rw [List.chain'_append]
      refine ⟨hchain, List.chain'_singleton _, ?_⟩
      intro x hx y hy
      simp only [List.head?_cons, Option.mem_def, Option.some.injEq] at hy
      subst hy
      rw [Option.mem_def] at hx
      constructor
      · rw [assembleBlock_previousHash, prevHashOf, hx]
      · rw [assembleBlock_number, hlast x hx]
    · intro b hb
      cases hbs : s.blocks with
      | nil =>
        rw [hbs] at hb
        simp only [List.nil_append, List.head?_cons, Option.mem_def,
          Option.some.injEq] at hb
        subst hb
        rw [assembleBlock_previousHash, hbs]
        rfl
      | cons x xs =>
        rw [hbs] at hb
        simp only [List.cons_append, List.head?_cons, Option.mem_def,
          Option.some.injEq] at hb
        subst hb
        apply hhead
        rw [hbs]
        rfl
    · intro b hb
      simp only [List.getLast?_append, List.getLast?_singleton, Option.or_some,
        Option.mem_def, Option.some.injEq] at hb
      subst hb
      rw [assembleBlock_number]

/-- Every seek-free operation preserves the chain invariant. -/
theorem genInv_applyOp (opts : SimulatorOptions) (s : GenState) (op : GenOp)
    (hop : isSeekOp op = false) (h : genInv s) : genInv (applyOp opts s op).1 := by
  cases op with
  | startOp o =>
    simp only [applyOp]
    split
    · exact h
    · exact genInv_generate opts _ o h
  | stopOp => exact h
  | pauseOp =>
    simp only [applyOp]
    split
    · exact h
    · exact h
  | resumeOp =>
    simp only [applyOp]
    split
    · exact h
    · exact h
  | seekOp n => simp [isSeekOp] at hop
  | tickOp o =>
    simp only [applyOp]
    split
    · exact h
    · split
      · exact h
      · exact genInv_generate opts s o h

/-- A seek-free run preserves the chain invariant. -/
theorem genInv_runOps (opts : SimulatorOptions) (ops : List GenOp) (s : GenState)
    (hseek : noSeek ops = true) (h : genInv s) : genInv (runOps opts s ops).1 := by
  induction ops generalizing s with
  | nil => exact h
  | cons op ops ih =>
    simp only [noSeek, List.all_cons, Bool.and_eq_true, Bool.not_eq_true'] at hseek
    exact ih _ (by simp [noSeek, hseek.2]) (genInv_applyOp opts s op hseek.1 h)

/-- The constructor-time state satisfies the chain invariant. -/
theorem genInv_init (opts : SimulatorOptions) : genInv (initState opts) := by
  refine ⟨List.chain'_nil, ?_, ?_⟩ <;> intro b hb <;> simp [initState] at hb

/-- `generateAndEmitBlock` never emits a heartbeat (either branch). -/
theorem generate_no_heartbeat (opts : SimulatorOptions) (s : GenState) (o : BlockOracle) :
    ∀ e ∈ (generateAndEmitBlock opts s o).2, isHeartbeatEmission e = false := by
  intro e he
  by_cases hf : opts.failureRate > 0 ∧ o.failRoll
  · rw [generateAndEmitBlock_fail opts s o hf] at he
    simp only [List.mem_cons, List.not_mem_nil, or_false] at he
    rcases he with rfl | rfl <;> rfl
  · simp only [generateAndEmitBlock, if_neg hf, List.mem_append, List.mem_cons,
      List.not_mem_nil, or_false, List.mem_flatMap] at he
    rcases he with (rfl | ⟨item, _, hmem⟩) | (rfl | rfl)
    · rfl
    · rcases item with tx | sc <;>
        simp only [List.mem_cons, List.not_mem_nil, or_false] at hmem <;>
        rcases hmem with rfl | rfl <;> rfl
    · rfl
    · rfl

/-- Any block-log property holding for every assembled block is preserved
by every operation. -/
theorem blocks_all_applyOp (P : Block → Prop)
    (hP : ∀ (opts : SimulatorOptions) (s : GenState) (o : BlockOracle),
      P (assembleBlock opts s o))
    (opts : SimulatorOptions) (s : GenState) (op : GenOp)
    (h : ∀ b ∈ s.blocks, P b) : ∀ b ∈ (applyOp opts s op).1.blocks, P b := by
  have hgen : ∀ (s' : GenState) (o : BlockOracle), (∀ b ∈ s'.blocks, P b) →
      ∀ b ∈ (generateAndEmitBlock opts s' o).1.blocks, P b := by
    intro s' o h' b hb
    by_cases hf : opts.failureRate > 0 ∧ o.failRoll
    · rw [generateAndEmitBlock_fail opts s' o hf] at hb
      exact h' b hb
    · rw [generateAndEmitBlock_success opts s' o hf] at hb
      simp only [List.mem_append, List.mem_singleton] at hb
      rcases hb with hb | rfl
      · exact h' b hb
      · exact hP opts s' o
  cases op with
  | startOp o =>
    simp only [applyOp]
    split
    · exact h
    · exact hgen _ o h
  | stopOp => exact h
  | pauseOp =>
    simp only [applyOp]
    split
    · exact h
    · exact h
  | resumeOp =>
    simp only [applyOp]
    split
    · exact h
    · exact h
  | seekOp n =>
    simp only [applyOp]
    split
    · exact h
    · exact h
  | tickOp o =>
    simp only [applyOp]
    split
    · exact h
    · split
      · exact h
      · exact hgen s o h

/-- Run-level version of `blocks_all_applyOp`. -/
theorem blocks_all_runOps (P : Block → Prop)
    (hP : ∀ (opts : SimulatorOptions) (s : GenState) (o : BlockOracle),
      P (assembleBlock opts s o))
    (opts : SimulatorOptions) (ops : List GenOp) (s : GenState)
    (h : ∀ b ∈ s.blocks, P b) : ∀ b ∈ (runOps opts s ops).1.blocks, P b := by
  induction ops generalizing s with
  | nil => exact h
  | cons op ops ih => exact ih _ (blocks_all_applyOp P hP opts s op h)

/-- The transfer list built by `generateTransfers` sums to zero. -/
theorem mkTransaction_transfers_sum (o : TxOracle) (t : Int) :
    ((mkTransaction o t).transfers.map (fun tr => tr.amount)).sum = 0 := by
  simp [mkTransaction, generateTransfers]
  ring

/-- Every transaction item in an assembled block has zero-sum transfers. -/
theorem assembleBlock_tx_sum (opts : SimulatorOptions) (s : GenState) (o : BlockOracle) :
    ∀ tx : EventTransaction, BlockItem.transaction tx ∈ (assembleBlock opts s o).items →
      (tx.transfers.map (fun tr => tr.amount)).sum = 0 := by
  intro tx htx
  simp only [assembleBlock, List.mem_append, List.mem_map, generateTransactions,
    generateStateChanges, List.mem_filterMap, List.mem_range] at htx
  rcases htx with ⟨tx', ⟨i, _, rfl⟩, heq⟩ | ⟨sc, _, heq⟩
  · cases heq
    exact mkTransaction_transfers_sum _ _
  · cases heq

/-! ## Claim theorems: generator -/

/-- **C1** — In every run of `MockBlockStream` in which `seek` is never
called, each stored block after the first links to its predecessor
(`previousHash` equals the previous block's `hash` and block numbers
increase by exactly 1), and the first stored block has an empty
`previousHash`. -/
theorem seekFree_run_chain (opts : SimulatorOptions) (ops : List GenOp)
    (hseek : noSeek ops = true) :
    (runOps opts (initState opts) ops).1.blocks.Chain' linked
    ∧ ∀ b ∈ (runOps opts (initState opts) ops).1.blocks.head?,
        b.header.previousHash = "" := by
  have h := genInv_runOps opts ops (initState opts) hseek (genInv_init opts)
  exact ⟨h.1, h.2.1⟩

/-- Witness for C1: a concrete seek-free two-block run. -/
theorem seekFree_run_chain_witness :
    noSeek [GenOp.startOp bo1, GenOp.tickOp bo2] = true
    ∧ ((runOps opts1 (initState opts1) [GenOp.startOp bo1, GenOp.tickOp bo2]).1.blocks.Chain'
        linked
      ∧ ∀ b ∈ (runOps opts1 (initState opts1)
          [GenOp.startOp bo1, GenOp.tickOp bo2]).1.blocks.head?,
          b.header.previousHash = "") :=
  ⟨rfl, seekFree_run_chain opts1 [GenOp.startOp bo1, GenOp.tickOp bo2] rfl⟩

/-- A tick on a running, unpaused stream runs the generation body. -/
theorem applyOp_tick_run (opts : SimulatorOptions) (s : GenState) (o : BlockOracle)
    (hrun : s.running = true) (hp : s.paused = false) :
    applyOp opts s (.tickOp o) = generateAndEmitBlock opts s o := by
  simp [applyOp, hrun, hp]

/-- **C4** — On a tick where the injected failure fires, the state is
completely untouched (no block assembled or appended, the block counter
not advanced, `running` still true) and exactly a recoverable stream-error
event plus an error event are emitted; a following non-failing tick then
proceeds normally, appending a block. -/
theorem failure_tick_recoverable (opts : SimulatorOptions) (s : GenState) (o : BlockOracle)
    (hrate : opts.failureRate > 0) (hroll : o.failRoll = true)
    (hrun : s.running = true) (hp : s.paused = false) :
    applyOp opts s (.tickOp o) =
      (s, [ .streamEvent (.streamError "Simulated stream error (failure injection)"
              true s.currentBlockNumber),
            .errorEmit "Simulated stream error (failure injection)" ])
    ∧ ∀ o2 : BlockOracle, o2.failRoll = false →
        (applyOp opts s (.tickOp o2)).1 =
          { s with blocks := s.blocks ++ [assembleBlock opts s o2],
                   currentBlockNumber := s.currentBlockNumber + 1 } := by
  constructor
  · rw [applyOp_tick_run opts s o hrun hp]
    exact generateAndEmitBlock_fail opts s o ⟨hrate, hroll⟩
  · intro o2 h2
    rw [applyOp_tick_run opts s o2 hrun hp]
    rw [generateAndEmitBlock_success opts s o2 (by simp [h2])]

/-- Witness for C4: concrete failing tick on a running state. -/
theorem failure_tick_recoverable_witness :
    optsFail.failureRate > 0 ∧ boFail.failRoll = true
    ∧ runningState.running = true ∧ runningState.paused = false
    ∧ applyOp optsFail runningState (.tickOp boFail) =
        (runningState,
         [ .streamEvent (.streamError "Simulated stream error (failure injection)"
             true runningState.currentBlockNumber),
           .errorEmit "Simulated stream error (failure injection)" ]) :=
  ⟨by norm_num [optsFail], rfl, rfl, rfl,
   (failure_tick_recoverable optsFail runningState boFail
     (by norm_num [optsFail]) rfl rfl rfl).1⟩

/-- **C6** — Every transaction in every block of any run has transfers
summing to exactly zero (payer debited `transferAmount + fee`, recipient
credited `transferAmount`, node credited `fee`). -/
theorem run_transfers_sum_zero (opts : SimulatorOptions) (ops : List GenOp) :
    ∀ b ∈ (runOps opts (initState opts) ops).1.blocks,
      ∀ tx : EventTransaction, BlockItem.transaction tx ∈ b.items →
        (tx.transfers.map (fun tr => tr.amount)).sum = 0 := by
  refine blocks_all_runOps _ ?_ opts ops (initState opts) ?_
  · intro opts' s' o' tx htx
    exact assembleBlock_tx_sum opts' s' o' tx htx
  · intro b hb
    simp [initState] at hb

/-- Witness for C6: the concrete transaction of a concrete one-block run. -/
theorem run_transfers_sum_zero_witness :
    assembleBlock opts1 { initState opts1 with running := true, paused := false } bo1
        ∈ (runOps opts1 (initState opts1) [GenOp.startOp bo1]).1.blocks
    ∧ BlockItem.transaction (mkTransaction txo0 1700000000000)
        ∈ (assembleBlock opts1 { initState opts1 with running := true, paused := false }
            bo1).items
    ∧ ((mkTransaction txo0 1700000000000).transfers.map (fun tr => tr.amount)).sum = 0 :=
  ⟨by decide, by decide,
   run_transfers_sum_zero opts1 [GenOp.startOp bo1]
     (assembleBlock opts1 { initState opts1 with running := true, paused := false } bo1)
     (by decide) (mkTransaction txo0 1700000000000) (by decide)⟩

/-- **C7 (counterexample)** — On a stream that has already produced a block
(number 1, hash `"aa"`), calling `seek(100)` and generating one more block
yields a block with number 100 whose `previousHash` is `"aa"`, not the
empty string: the claim's "previousHash equal to the empty string" is
false at this input. -/
theorem seek_prevHash_counterexample :
    ((runOps opts1 (initState opts1)
        [GenOp.startOp bo1, GenOp.seekOp 100, GenOp.tickOp bo2]).1.blocks.map
      (fun b => (b.header.number, b.header.previousHash)))
      = [(1, ""), (100, "aa")]
    ∧ ("aa" : String) ≠ "" :=
  ⟨by decide, by decide⟩

/-- **C7 (amended)** — After `seek(100)` on a running, unpaused stream, the
next successfully generated block has number 100; its `previousHash` is
the hash of the last block stored before the seek, hence the empty string
exactly when the log was still empty (the stored chain is unbroken; only
the numbering jumps). -/
theorem seek_then_generate (opts : SimulatorOptions) (s : GenState) (o : BlockOracle)
    (hrun : s.running = true) (hp : s.paused = false)
    (hfail : ¬ (opts.failureRate > 0 ∧ o.failRoll = true)) :
    ((applyOp opts (applyOp opts s (.seekOp 100)).1 (.tickOp o)).1.blocks.getLast?.map
        (fun b => (b.header.number, b.header.previousHash)))
      = some (100, prevHashOf s.blocks) := by
  have hseek : (applyOp opts s (.seekOp 100)).1 = { s with currentBlockNumber := 100 } := by
    simp [applyOp]
  rw [hseek]
  rw [applyOp_tick_run opts { s with currentBlockNumber := 100 } o hrun hp]
  rw [generateAndEmitBlock_success opts { s with currentBlockNumber := 100 } o
    (by simpa using hfail)]
  simp [assembleBlock_number, assembleBlock_previousHash]

/-- Witness for C7 (amended): fresh started stream, empty log, so the new
block's `previousHash` is the empty string and its number is 100. -/
theorem seek_then_generate_witness :
    runningState.running = true ∧ runningState.paused = false
    ∧ ¬ (opts1.failureRate > 0 ∧ bo2.failRoll = true)
    ∧ ((applyOp opts1 (applyOp opts1 runningState (.seekOp 100)).1
          (.tickOp bo2)).1.blocks.getLast?.map
        (fun b => (b.header.number, b.header.previousHash)))
        = some (100, prevHashOf runningState.blocks) :=
  ⟨rfl, rfl, by norm_num [opts1, bo2],
   seek_then_generate opts1 runningState bo2 rfl rfl (by norm_num [opts1, bo2])⟩

/-- **C9 (counterexample)** — While paused, a `seek(50)` makes the next
heartbeat carry 49, while the only block ever produced has number 1: the
claim's "the heartbeat carries the block number of the last produced
block" is false at this input. -/
theorem heartbeat_value_counterexample :
    ((runOps opts1 (initState opts1)
        [GenOp.startOp bo1, GenOp.pauseOp, GenOp.seekOp 50, GenOp.tickOp bo2]).2.filterMap
      (fun e => match e with | .heartbeatEmit n => some n | _ => none)) = [49]
    ∧ ((runOps opts1 (initState opts1)
        [GenOp.startOp bo1, GenOp.pauseOp, GenOp.seekOp 50, GenOp.tickOp bo2]).1.blocks.map
      (fun b => b.header.number)) = [1]
    ∧ (49 : Int) ≠ 1 :=
  ⟨by decide, by decide, by decide⟩

/-- **C9 (amended)** — While a running stream is paused, a timer tick
leaves the state untouched and emits exactly one heartbeat (on the
`heartbeat` and `streamEvent` channels) and no block; the heartbeat
carries `currentBlockNumber − 1`, which equals the last produced block's
number in chain-invariant states (in particular in every seek-free run);
and no operation on an unpaused state ever emits a heartbeat. -/
theorem paused_tick_heartbeat (opts : SimulatorOptions) (s : GenState) (o : BlockOracle)
    (hrun : s.running = true) (hp : s.paused = true) :
    applyOp opts s (.tickOp o) =
      (s, [ .heartbeatEmit (s.currentBlockNumber - 1),
            .streamEvent (.heartbeat (s.currentBlockNumber - 1)) ])
    ∧ (∀ (s' : GenState) (op : GenOp), s'.paused = false →
        ∀ e ∈ (applyOp opts s' op).2, isHeartbeatEmission e = false)
    ∧ (genInv s → ∀ b ∈ s.blocks.getLast?, s.currentBlockNumber - 1 = b.header.number) := by
  refine ⟨by simp [applyOp, hrun, hp], ?_, ?_⟩
  · intro s' op hp' e he
    cases op with
    | startOp o2 =>
      simp only [applyOp] at he
      split at he
      · simp at he
      · exact generate_no_heartbeat opts _ o2 e he
    | stopOp =>
      simp only [applyOp, List.mem_singleton] at he
      subst he
      rfl
    | pauseOp =>
      simp only [applyOp] at he
      split at he
      · simp at he
      · simp only [List.mem_singleton] at he
        subst he
        rfl
    | resumeOp =>
      simp only [applyOp, hp', Bool.not_eq_true] at he
      simp at he
    | seekOp n =>
      simp only [applyOp] at he
      split at he <;> simp at he
    | tickOp o2 =>
      simp only [applyOp] at he
      split at he
      · simp at he
      · split at he
        · next hpp => simp [hp'] at hpp
        · exact generate_no_heartbeat opts s' o2 e he
  · intro hinv b hb
    have := hinv.2.2 b hb
    omega

/-- Witness for C9 (amended): concrete paused state. -/
theorem paused_tick_heartbeat_witness :
    (runningState.running = true ∧ True)
    ∧ applyOp opts1 { runningState with paused := true } (.tickOp bo2) =
        ({ runningState with paused := true },
         [ .heartbeatEmit ({ runningState with paused := true }.currentBlockNumber - 1),
           .streamEvent (.heartbeat
             ({ runningState with paused := true }.currentBlockNumber - 1)) ]) :=
  ⟨⟨rfl, trivial⟩,
   (paused_tick_heartbeat opts1 { runningState with paused := true } bo2 rfl rfl).1⟩

/-! ## Query-index lemmas -/

/-- The watermark never decreases over one refresh scan. -/
theorem wmAfter_mono (wm : Int) (bs : List Block) : wm ≤ wmAfter wm bs := by
  induction bs generalizing wm with
  | nil => exact le_refl wm
  | cons b bs ih =>
    simp only [wmAfter]
    split
    · exact ih wm
    · next h => exact le_trans (le_of_not_le h) (ih b.header.number)

/-- Every folded block number lies strictly above the starting watermark
and at or below the final watermark. -/
theorem foldedNumbers_bounds (wm : Int) (bs : List Block) :
    ∀ n ∈ foldedNumbers wm bs, wm < n ∧ n ≤ wmAfter wm bs := by
  induction bs generalizing wm with
  | nil => intro n hn; simp [foldedNumbers] at hn
  | cons b bs ih =>
    intro n hn
    simp only [foldedNumbers] at hn
    by_cases hb : b.header.number ≤ wm
    · rw [if_pos hb] at hn
      simpa only [wmAfter, if_pos hb] using ih wm n hn
    · rw [if_neg hb] at hn
      simp only [wmAfter, if_neg hb]
      rcases List.mem_cons.mp hn with rfl | hn'
      · exact ⟨lt_of_not_le hb, wmAfter_mono _ bs⟩
      · have h2 := ih b.header.number n hn'
        exact ⟨lt_trans (lt_of_not_le hb) h2.1, h2.2⟩

/-- The folded numbers of one refresh scan are strictly increasing. -/
theorem foldedNumbers_pairwise (wm : Int) (bs : List Block) :
    (foldedNumbers wm bs).Pairwise (· < ·) := by
  induction bs generalizing wm with
  | nil => exact List.Pairwise.nil
  | cons b bs ih =>
    simp only [foldedNumbers]
    split
    · exact ih wm
    · exact List.Pairwise.cons
        (fun n hn => (foldedNumbers_bounds b.header.number bs n hn).1)
        (ih b.header.number)

/-- Folding a block changes the watermark exactly as `wmAfter` records. -/
theorem foldItem_wm (s : QueryState) (items : List BlockItem) :
    (items.foldl foldItem s).lastIndexedBlock = s.lastIndexedBlock := by
  induction items generalizing s with
  | nil => rfl
  | cons it its ih =>
    rw [List.foldl_cons, ih]
    cases it <;> rfl

/-- `refreshIndexes` advances the watermark to `wmAfter`. -/
theorem refreshIndexes_wm (s : QueryState) (bs : List Block) :
    (refreshIndexes s bs).lastIndexedBlock = wmAfter s.lastIndexedBlock bs := by
  induction bs generalizing s with
  | nil => rfl
  | cons b bs ih =>
    simp only [refreshIndexes, wmAfter, foldBlock]
    split
    · exact ih s
    · rw [ih]

/-- The watermark never decreases across a whole sequence of refreshes. -/
theorem runRefresh_wm_mono (s : QueryState) (ls : List (List Block)) :
    s.lastIndexedBlock ≤ (runRefresh s ls).1.lastIndexedBlock := by
  induction ls generalizing s with
  | nil => exact le_refl _
  | cons l ls ih =>
    refine le_trans ?_ (ih (refreshIndexes s l))
    rw [refreshIndexes_wm]
    exact wmAfter_mono _ l

/-- Every block number folded anywhere in a sequence of refreshes lies
strictly above the initial watermark. -/
theorem runRefresh_folded_gt (s : QueryState) (ls : List (List Block)) :
    ∀ n ∈ (runRefresh s ls).2, s.lastIndexedBlock < n := by
  induction ls generalizing s with
  | nil => intro n hn; simp [runRefresh] at hn
  | cons l ls ih =>
    intro n hn
    simp only [runRefresh, List.mem_append] at hn
    rcases hn with hn | hn
    · exact (foldedNumbers_bounds _ l n hn).1
    · have h2 := ih (refreshIndexes s l) n hn
      refine lt_of_le_of_lt ?_ h2
      rw [refreshIndexes_wm]
      exact wmAfter_mono _ l

/-- All block numbers folded across a sequence of refreshes are strictly
increasing (hence no block number is ever folded twice). -/
theorem runRefresh_pairwise (s : QueryState) (ls : List (List Block)) :
    (runRefresh s ls).2.Pairwise (· < ·) := by
  induction ls generalizing s with
  | nil => exact List.Pairwise.nil
  | cons l ls ih =>
    simp only [runRefresh]
    rw [List.pairwise_append]
    refine ⟨foldedNumbers_pairwise _ l, ih (refreshIndexes s l), ?_⟩
    intro a ha b hb
    have h1 := (foldedNumbers_bounds _ l a ha).2
    have h2 := runRefresh_folded_gt (refreshIndexes s l) ls b hb
    rw [refreshIndexes_wm] at h2
    exact lt_of_le_of_lt h1 h2

/-- One refresh never lowers the watermark. -/
theorem refreshIndexes_wm_mono (s : QueryState) (l : List Block) :
    s.lastIndexedBlock ≤ (refreshIndexes s l).lastIndexedBlock := by
  rw [refreshIndexes_wm]
  exact wmAfter_mono _ l

/-! ## Claim theorems: query index -/

/-- **C5** — Across any sequence of refreshes (one per query, each over
the then-current block log), the `lastIndexedBlock` watermark never
decreases, the numbers of the blocks folded into the maps are pairwise
distinct (no block is folded more than once), a block whose number is at
or below the watermark is skipped by every refresh, and every individual
query operation leaves the watermark at least where it was. -/
theorem watermark_monotone_no_refold (s : QueryState) (ls : List (List Block)) :
    s.lastIndexedBlock ≤ (runRefresh s ls).1.lastIndexedBlock
    ∧ (runRefresh s ls).2.Nodup
    ∧ (∀ (l : List Block) (n : Int), n ≤ s.lastIndexedBlock →
        n ∉ foldedNumbers s.lastIndexedBlock l)
    ∧ (∀ l : List Block,
        (∀ n : Int, s.lastIndexedBlock ≤ (qsGetBlock s l n).2.lastIndexedBlock)
        ∧ (∀ tid : String,
            s.lastIndexedBlock ≤ (qsGetTransaction s l tid).2.lastIndexedBlock)
        ∧ (∀ (aid : String) (seed : Int),
            s.lastIndexedBlock ≤ (qsGetAccountBalance s l aid seed).2.lastIndexedBlock)
        ∧ (∀ (eid : String) (po : Nat → String) (no2 : Int),
            s.lastIndexedBlock ≤ (qsGetStateProof s l eid po no2).2.lastIndexedBlock)
        ∧ (∀ pid : String,
            s.lastIndexedBlock ≤ (qsGetTransactionsByAccount s l pid).2.lastIndexedBlock)
        ∧ (∀ lo hi : Int,
            s.lastIndexedBlock ≤ (qsGetBlockRange s l lo hi).2.lastIndexedBlock)) := by
  refine ⟨runRefresh_wm_mono s ls, ?_, ?_, ?_⟩
  · exact (runRefresh_pairwise s ls).imp (fun h => ne_of_lt h)
  · intro l n hn hmem
    exact absurd (foldedNumbers_bounds _ l n hmem).1 (not_lt.mpr hn)
  · intro l
    refine ⟨?_, ?_, ?_, ?_, ?_, ?_⟩
    · intro n
      simp only [qsGetBlock]
      split
      · exact le_refl _
      · split <;> exact refreshIndexes_wm_mono s l
    · intro tid
      simp only [qsGetTransaction]
      split
      · exact le_refl _
      · split <;> exact refreshIndexes_wm_mono s l
    · intro aid seed
      simp only [qsGetAccountBalance]
      split
      · exact le_refl _
      · split
        · exact refreshIndexes_wm_mono s l
        · exact refreshIndexes_wm_mono s l
    · intro eid po no2
      simp only [qsGetStateProof]
      split
      · exact le_refl _
      · exact refreshIndexes_wm_mono s l
    · intro pid
      simp only [qsGetTransactionsByAccount]
      split
      · exact le_refl _
      · exact refreshIndexes_wm_mono s l
    · intro lo hi
      simp only [qsGetBlockRange]
      split
      · exact le_refl _
      · exact refreshIndexes_wm_mono s l

/-- Witness for C5: a concrete two-refresh sequence over growing logs. -/
theorem watermark_monotone_no_refold_witness :
    qs0.lastIndexedBlock ≤
      (runRefresh qs0 [[miniBlock 0], [miniBlock 0, miniBlock 1]]).1.lastIndexedBlock
    ∧ (runRefresh qs0 [[miniBlock 0], [miniBlock 0, miniBlock 1]]).2.Nodup
    ∧ (-5 : Int) ∉ foldedNumbers qs0.lastIndexedBlock [miniBlock 0] :=
  ⟨(watermark_monotone_no_refold qs0 [[miniBlock 0], [miniBlock 0, miniBlock 1]]).1,
   (watermark_monotone_no_refold qs0 [[miniBlock 0], [miniBlock 0, miniBlock 1]]).2.1,
   (watermark_monotone_no_refold qs0 [[miniBlock 0], [miniBlock 0, miniBlock 1]]).2.2.1
     [miniBlock 0] (-5) (by decide)⟩

/-- **C8** — Every `QuerySimulator` query given malformed input (a
negative block number, an invalid range, or an account / transaction id
failing format validation) returns an explicit error value with the
documented code and performs no indexing side effect: the returned state
is exactly the input state, because validation runs before
`refreshIndexes`. -/
theorem malformed_input_no_side_effect (s : QueryState) (log : List Block) :
    (∀ n : Int, n < 0 →
      qsGetBlock s log n =
        (.err { code := .INVALID_BLOCK_NUMBER,
                message := "Block number must be non-negative" }, s))
    ∧ (∀ tid : String, transactionIdValid tid = false →
      qsGetTransaction s log tid =
        (.err { code := .QUERY_FAILED,
                message := "Invalid transaction ID format. Expected: 0.0.12345@1709000000.000000000" }, s))
    ∧ (∀ aid : String, accountIdValid aid = false → ∀ seedValue : Int,
      qsGetAccountBalance s log aid seedValue =
        (.err { code := .QUERY_FAILED,
                message := "Invalid account ID format. Expected: 0.0.12345" }, s))
    ∧ (∀ eid : String, accountIdValid eid = false →
        ∀ (po : Nat → String) (no : Int),
      qsGetStateProof s log eid po no =
        (.err { code := .QUERY_FAILED,
                message := "Invalid account ID format. Expected: 0.0.12345" }, s))
    ∧ (∀ pid : String, accountIdValid pid = false →
      qsGetTransactionsByAccount s log pid =
        (.err { code := .QUERY_FAILED,
                message := "Invalid account ID format. Expected: 0.0.12345" }, s))
    ∧ (∀ lo hi : Int, lo < 0 ∨ hi < lo →
      qsGetBlockRange s log lo hi =
        (.err { code := .INVALID_BLOCK_NUMBER, message := "Invalid range" }, s)) := by
  refine ⟨?_, ?_, ?_, ?_, ?_, ?_⟩
  · intro n hn
    simp [qsGetBlock, not_le.mpr hn]
  · intro tid htid
    simp [qsGetTransaction, htid]
  · intro aid haid seedValue
    simp [qsGetAccountBalance, haid]
  · intro eid heid po no
    simp [qsGetStateProof, heid]
  · intro pid hpid
    simp [qsGetTransactionsByAccount, hpid]
  · intro lo hi hr
    simp [qsGetBlockRange, hr]

/-- Witness for C8: the concrete malformed inputs `-1` and `"bad"`. -/
theorem malformed_input_no_side_effect_witness :
    qsGetBlock qs0 [] (-1) =
      (.err { code := .INVALID_BLOCK_NUMBER,
              message := "Block number must be non-negative" }, qs0)
    ∧ qsGetTransaction qs0 [] "bad" =
      (.err { code := .QUERY_FAILED,
              message := "Invalid transaction ID format. Expected: 0.0.12345@1709000000.000000000" }, qs0)
    ∧ qsGetAccountBalance qs0 [] "bad" 7 =
      (.err { code := .QUERY_FAILED,
              message := "Invalid account ID format. Expected: 0.0.12345" }, qs0) :=
  ⟨(malformed_input_no_side_effect qs0 []).1 (-1) (by decide),
   (malformed_input_no_side_effect qs0 []).2.1 "bad" (by decide),
   (malformed_input_no_side_effect qs0 []).2.2.1 "bad" (by decide) 7⟩

/-! ## Claim theorems: fallback router -/

/-- Under strategy `disabled`, one dispatch changes nothing: state kept,
no events, no remote call. -/
theorem dispatch_disabled {α : Type} (cfg : FallbackConfig) (s : FallbackState)
    (p r : Result α) (hs : cfg.strategy = .disabled) :
    (dispatch cfg s p r).state = s
    ∧ (dispatch cfg s p r).events = []
    ∧ (dispatch cfg s p r).remoteCalled = false := by
  simp only [dispatch]
  split
  · cases p with
    | ok v => exact ⟨rfl, rfl, rfl⟩
    | err e =>
      simp [activateFallback, if_pos hs, remotePath]
  · simp [remotePath, if_pos hs]

/-- A dispatch in fallback mode keeps fallback mode and serves remotely. -/
theorem dispatch_active {α : Type} (cfg : FallbackConfig) (s : FallbackState)
    (p r : Result α) (hs : cfg.strategy ≠ .disabled) (ha : s.fallbackActive = true) :
    (dispatch cfg s p r).primaryCalled = false
    ∧ (dispatch cfg s p r).remoteCalled = true
    ∧ (dispatch cfg s p r).state = s := by
  have hcond : ¬ (cfg.hasPrimary ∧ ¬ s.fallbackActive) := by
    simp [ha]
  simp only [dispatch, if_neg hcond, remotePath, if_neg hs]
  cases r with
  | ok v => exact ⟨rfl, rfl, rfl⟩
  | err e => exact ⟨rfl, rfl, rfl⟩

/-- Once active, fallback mode survives any further sequence of queries. -/
theorem runQueries_active {α : Type} (cfg : FallbackConfig)
    (hs : cfg.strategy ≠ .disabled) :
    ∀ (qs : List (Result α × Result α)) (s : FallbackState),
      s.fallbackActive = true → (runQueries cfg s qs).1.fallbackActive = true := by
  intro qs
  induction qs with
  | nil => intro s ha; exact ha
  | cons q qs ih =>
    intro s ha
    simp only [runQueries]
    rw [(dispatch_active cfg s q.1 q.2 hs ha).2.2]
    exact ih s ha

/-- **C2** — Once fallback mode is active (under a strategy other than
`disabled`, the only strategies under which it can activate), every query
skips the primary entirely and is served from the remote path, the flag
stays set across any further sequence of queries (a successful remote
call never deactivates it), `resetFallback` clears the flag, and the next
query after a reset re-attempts the primary. -/
theorem fallback_hysteresis {α : Type} (cfg : FallbackConfig) (s : FallbackState)
    (p r : Result α) (hs : cfg.strategy ≠ .disabled) (ha : s.fallbackActive = true) :
    (dispatch cfg s p r).primaryCalled = false
    ∧ (dispatch cfg s p r).remoteCalled = true
    ∧ (dispatch cfg s p r).state.fallbackActive = true
    ∧ (∀ qs : List (Result α × Result α),
        (runQueries cfg s qs).1.fallbackActive = true)
    ∧ (resetFallback s).1.fallbackActive = false
    ∧ (∀ p2 r2 : Result α, cfg.hasPrimary = true →
        (dispatch cfg (resetFallback s).1 p2 r2).primaryCalled = true) := by
  obtain ⟨h1, h2, h3⟩ := dispatch_active cfg s p r hs ha
  refine ⟨h1, h2, by rw [h3]; exact ha, fun qs => runQueries_active cfg hs qs s ha, ?_, ?_⟩
  · simp [resetFallback, ha]
  · intro p2 r2 hprim
    have hreset : (resetFallback s).1.fallbackActive = false := by
      simp [resetFallback, ha]
    simp only [dispatch, hprim, hreset]
    simp only [Bool.false_eq_true, not_false_eq_true, and_self, if_true]
    cases p2 with
    | ok v => rfl
    | err e =>
      simp only [remotePath]
      split
      · rfl
      · cases r2 <;> rfl

/-- Witness for C2: strategy `auto`, active fallback, concrete outcomes. -/
theorem fallback_hysteresis_witness :
    (FallbackConfig.mk .auto true).strategy ≠ FallbackStrategy.disabled
    ∧ (FallbackState.mk true).fallbackActive = true
    ∧ (dispatch (FallbackConfig.mk .auto true) (FallbackState.mk true)
        (Result.ok (0 : Int)) (Result.ok 1)).primaryCalled = false
    ∧ (dispatch (FallbackConfig.mk .auto true) (FallbackState.mk true)
        (Result.ok (0 : Int)) (Result.ok 1)).state.fallbackActive = true
    ∧ (resetFallback (FallbackState.mk true)).1.fallbackActive = false :=
  ⟨by decide, rfl,
   (fallback_hysteresis (FallbackConfig.mk .auto true) (FallbackState.mk true)
     (Result.ok (0 : Int)) (Result.ok 1) (by decide) rfl).1,
   (fallback_hysteresis (FallbackConfig.mk .auto true) (FallbackState.mk true)
     (Result.ok (0 : Int)) (Result.ok 1) (by decide) rfl).2.2.1,
   (fallback_hysteresis (FallbackConfig.mk .auto true) (FallbackState.mk true)
     (Result.ok (0 : Int)) (Result.ok 1) (by decide) rfl).2.2.2.2.1⟩

/-- **C3** — Under strategy `disabled`, a query whose primary call fails
(or with no primary configured) returns the distinct fallback-disabled
error (`FALLBACK_DISABLED`) and the remote path is never reached
(`mirrorGet` is not called). -/
theorem disabled_no_remote {α : Type} (cfg : FallbackConfig) (s : FallbackState)
    (p r : Result α) (hs : cfg.strategy = .disabled)
    (hp : cfg.hasPrimary = false ∨ ∃ e, p = .err e) :
    (dispatch cfg s p r).result =
      .err { code := .FALLBACK_DISABLED, message := "Fallback is disabled." }
    ∧ (dispatch cfg s p r).remoteCalled = false := by
  simp only [dispatch]
  split
  · next hcond =>
    cases p with
    | ok v =>
      rcases hp with hp | ⟨e, he⟩
      · rw [hp] at hcond
        simp at hcond
      · cases he
    | err e =>
      simp [activateFallback, if_pos hs, remotePath]
  · simp [remotePath, if_pos hs]

/-- Witness for C3: strategy `disabled`, primary failing concretely. -/
theorem disabled_no_remote_witness :
    (FallbackConfig.mk .disabled true).strategy = FallbackStrategy.disabled
    ∧ (dispatch (FallbackConfig.mk .disabled true) (FallbackState.mk false)
        (Result.err { code := .QUERY_FAILED, message := "Block not found" })
        (Result.ok (0 : Int))).result =
      .err { code := .FALLBACK_DISABLED, message := "Fallback is disabled." }
    ∧ (dispatch (FallbackConfig.mk .disabled true) (FallbackState.mk false)
        (Result.err { code := .QUERY_FAILED, message := "Block not found" })
        (Result.ok (0 : Int))).remoteCalled = false :=
  ⟨rfl,
   (disabled_no_remote (FallbackConfig.mk .disabled true) (FallbackState.mk false)
     (Result.err { code := .QUERY_FAILED, message := "Block not found" })
     (Result.ok (0 : Int)) rfl (Or.inr ⟨_, rfl⟩)).1,
   (disabled_no_remote (FallbackConfig.mk .disabled true) (FallbackState.mk false)
     (Result.err { code := .QUERY_FAILED, message := "Block not found" })
     (Result.ok (0 : Int)) rfl (Or.inr ⟨_, rfl⟩)).2⟩

/-- **C10** — Under strategy `disabled`, across any sequence of queries
(including ones whose primary call fails) the `fallbackActive` flag never
becomes true — the final state still reports inactive and every
intermediate dispatch leaves the state exactly unchanged — and the
`fallbackActivated` event is never emitted, because `activateFallback`
returns early. -/
theorem disabled_never_activates {α : Type} (cfg : FallbackConfig)
    (hs : cfg.strategy = .disabled) (qs : List (Result α × Result α)) :
    (runQueries cfg { fallbackActive := false } qs).1 = { fallbackActive := false }
    ∧ isFallbackActive (runQueries cfg { fallbackActive := false } qs).1 = false
    ∧ ∀ ev ∈ (runQueries cfg { fallbackActive := false } qs).2,
        ∀ reason : String, ev ≠ .fallbackActivated reason := by
  have hrun : ∀ (qs' : List (Result α × Result α)) (s : FallbackState),
      (runQueries cfg s qs').1 = s ∧ (runQueries cfg s qs').2 = [] := by
    intro qs'
    induction qs' with
    | nil => intro s; exact ⟨rfl, rfl⟩
    | cons q qs' ih =>
      intro s
      obtain ⟨hst, hev, _⟩ := dispatch_disabled cfg s q.1 q.2 hs
      simp only [runQueries, hst, hev]
      obtain ⟨ih1, ih2⟩ := ih s
      exact ⟨ih1, by rw [ih2, List.nil_append]⟩
  obtain ⟨h1, h2⟩ := hrun qs { fallbackActive := false }
  refine ⟨h1, by rw [h1]; rfl, ?_⟩
  intro ev hev
  rw [h2] at hev
  simp at hev

/-- Witness for C10: strategy `disabled` with a failing-primary query. -/
theorem disabled_never_activates_witness :
    (FallbackConfig.mk .disabled true).strategy = FallbackStrategy.disabled
    ∧ isFallbackActive (runQueries (FallbackConfig.mk .disabled true)
        { fallbackActive := false }
        [(Result.err { code := .QUERY_FAILED, message := "Block not found" },
          Result.ok (0 : Int))]).1 = false :=
  ⟨rfl,
   (disabled_never_activates (FallbackConfig.mk .disabled true) rfl
     [(Result.err { code := .QUERY_FAILED, message := "Block not found" },
       Result.ok (0 : Int))]).2.1⟩

end HieroBridge
